import Mathlib

/-!
Verification of the equipment health analysis engine
(src/backend/python/mlPrediction.py) against its specification.

The Python source is shallowly embedded: JSON numbers are modelled as
rationals, a telemetry record is a structure of optional sensor values,
and each Python function becomes a Lean definition of the same name.
A field whose value is absent is modelled as none; the rule path treats
a JSON null like an absent field, which is also modelled as none.
The trained regression model, the scaler and the label encoder are
external artifacts: the model estimate and the encoded equipment type
enter the embedding as explicit parameters.  The analyzed_at timestamp
is impure and is not modelled.
-/

/-- A telemetry record: the equipment_type tag plus every sensor field
read anywhere in mlPrediction.py, each optional (absent or null). -/
structure TelemetryRecord where
  equipment_type : Option String := none
  operating_hours : Option ℚ := none
  battery_health : Option ℚ := none
  cpu_usage : Option ℚ := none
  ram_usage : Option ℚ := none
  thermal_throttling : Option ℚ := none
  gpu_usage : Option ℚ := none
  fan_speed : Option ℚ := none
  power_consumption : Option ℚ := none
  screen_brightness : Option ℚ := none
  network_activity : Option ℚ := none
  load_percentage : Option ℚ := none
  noise_level : Option ℚ := none
  rotation_speed : Option ℚ := none
  current_draw : Option ℚ := none
  oil_quality : Option ℚ := none
  efficiency_rating : Option ℚ := none

/-- The per-subsystem analysis map built by both paths
(lines 284-291 and 362-369 of mlPrediction.py). -/
structure Analysis where
  power_status : String
  thermal_status : String
  mechanical_status : String
  performance_status : String
  battery_status : String
  overall_condition : String
  deriving Repr

/-- The assessment dictionary returned by ml_predict and
rule_based_analyze (timestamp omitted: it is impure). -/
structure HealthAssessment where
  health_score : ℚ
  remaining_life_days : ℤ
  maintenance_needed_days : ℤ
  risk_level : String
  recommendations : List String
  critical_issues : List String
  warnings : List String
  analysis : Analysis
  equipment_type : String
  prediction_method : String
  deriving Repr

/-- Python int() applied to a rational: truncation toward zero
(num and den of a Lean rational are already reduced, den positive). -/
def pyTrunc (q : ℚ) : ℤ := q.num.tdiv q.den

/-- numpy.clip of line 119: below lo gives lo, above hi gives hi. -/
def np_clip (x lo hi : ℚ) : ℚ := if x < lo then lo else if x > hi then hi else x

/-- Round to the nearest integer, ties to the even integer, as Python
round does on an exact half. -/
def roundHalfEven (x : ℚ) : ℤ :=
  if x - (⌊x⌋ : ℚ) < 1/2 then ⌊x⌋
  else if 1/2 < x - (⌊x⌋ : ℚ) then ⌊x⌋ + 1
  else if ⌊x⌋ % 2 = 0 then ⌊x⌋ else ⌊x⌋ + 1

/-- Python round(x, 1): one decimal digit, ties to even.  The binary
floating point representation is not modelled; every value this is
applied to in the claims is an integer, where the two agree exactly. -/
def pyRound1 (x : ℚ) : ℚ := (roundHalfEven (10 * x) : ℚ) / 10

/-- calculate_risk_level, lines 465-474. -/
def calculate_risk_level (health_score : ℚ) : String :=
  if health_score ≥ 85 then "low"
  else if health_score ≥ 70 then "medium"
  else if health_score ≥ 50 then "high"
  else "critical"

/-- The base_life_days dictionary with its .get default 1825,
lines 478-483. -/
def base_life_days (t : String) : ℤ :=
  if t = "laptop" then 1825
  else if t = "phone" then 1095
  else if t = "tablet" then 1460
  else if t = "desktop" then 2555
  else if t = "industrial_machine" then 5475
  else if t = "motor" then 7300
  else if t = "pump" then 5475
  else if t = "compressor" then 5475
  else if t = "hvac" then 5475
  else 1825

/-- calculate_remaining_life, lines 476-484: int(base_life * (score/100)). -/
def calculate_remaining_life (eqType : String) (health_score : ℚ) : ℤ :=
  pyTrunc ((base_life_days eqType : ℚ) * (health_score / 100))

/-- calculate_maintenance_days, lines 486-497. -/
def calculate_maintenance_days (health_score : ℚ) (risk_level : String) : ℤ :=
  if risk_level = "critical" then 3
  else if risk_level = "high" then 7
  else if health_score < 75 then 30
  else if health_score < 85 then 60
  else 90

/-- get_overall_condition, lines 499-510. -/
def get_overall_condition (health_score : ℚ) : String :=
  if health_score ≥ 90 then "Excellent"
  else if health_score ≥ 75 then "Good"
  else if health_score ≥ 60 then "Fair"
  else if health_score ≥ 40 then "Poor"
  else "Critical"

/-- Numeric rank of a risk tier, 0 best to 3 worst; used only to state
monotonicity of the score-to-risk mapping. -/
def riskSeverity (r : String) : ℕ :=
  if r = "low" then 0 else if r = "medium" then 1 else if r = "high" then 2 else 3

/-- prepare_features, lines 153-194: the 17 features in training order.
The encoded equipment type comes from the external label encoder (or
mapping, or the value 0), so it is a parameter here; every other entry
is the field value with the documented default. -/
def prepare_features (eqTypeEncoded : ℚ) (data : TelemetryRecord) : List ℚ :=
  [eqTypeEncoded,
   data.operating_hours.getD 0,
   data.battery_health.getD 100,
   data.cpu_usage.getD 50,
   data.ram_usage.getD 8,
   data.thermal_throttling.getD 0,
   data.gpu_usage.getD 0,
   data.fan_speed.getD 2000,
   data.power_consumption.getD 50,
   data.screen_brightness.getD 50,
   data.network_activity.getD 0,
   data.load_percentage.getD 0,
   data.noise_level.getD 0,
   data.rotation_speed.getD 0,
   data.current_draw.getD 0,
   data.oil_quality.getD 100,
   data.efficiency_rating.getD 100]

/-- Boolean list-prefix test on characters. -/
def prefixOfB : List Char → List Char → Bool
  | [], _ => true
  | _ :: _, [] => false
  | a :: as, b :: bs => a == b && prefixOfB as bs

/-- Boolean contiguous-sublist test on characters. -/
def subListB : List Char → List Char → Bool
  | n, [] => prefixOfB n []
  | n, b :: bs => prefixOfB n (b :: bs) || subListB n bs

/-- The Python expression needle in hay on strings: contiguous
substring test. -/
def pyIn (needle hay : String) : Bool := subListB needle.data hay.data

/-- The filter of line 130: a recommendation counts as a critical issue
when it contains CRITICAL or the siren emoji. -/
def isCriticalRec (r : String) : Bool := pyIn "CRITICAL" r || pyIn "🚨" r

/-- The filter of line 131: a recommendation counts as a warning when it
contains the warning-sign emoji and not CRITICAL. -/
def isWarningRec (r : String) : Bool := pyIn "⚠️" r && !(pyIn "CRITICAL" r)

/-- Character for a decimal digit. -/
def digitChar (n : ℕ) : Char :=
  if n = 0 then '0' else if n = 1 then '1' else if n = 2 then '2'
  else if n = 3 then '3' else if n = 4 then '4' else if n = 5 then '5'
  else if n = 6 then '6' else if n = 7 then '7' else if n = 8 then '8' else '9'

/-- Decimal digits of a natural number, most significant first; the
first argument is structural fuel (enough whenever fuel is at least n). -/
def natDigitsAux : ℕ → ℕ → List Char
  | 0, _ => []
  | _ + 1, 0 => []
  | fuel + 1, n + 1 => natDigitsAux fuel ((n + 1) / 10) ++ [digitChar ((n + 1) % 10)]

/-- Decimal rendering of a natural number. -/
def natStr (n : ℕ) : String := if n = 0 then "0" else ⟨natDigitsAux n n⟩

/-- Rendering of a JSON number interpolated into an f-string.  The exact
digit sequence Python prints is irrelevant to every claim; all proofs use
only that the characters are digits, a minus sign or a slash. -/
def numRender (q : ℚ) : String :=
  (if q.num < 0 then "-" else "") ++ natStr q.num.natAbs
    ++ (if q.den = 1 then "" else "/" ++ natStr q.den)

/-- The per-type noise thresholds dictionary of line 245 with its .get
default 80. -/
def noise_threshold (t : String) : ℚ :=
  if t = "motor" then 80 else if t = "pump" then 75
  else if t = "compressor" then 90 else if t = "hvac" then 70 else 80

/-- Battery block of get_ml_recommendations, lines 201-208. -/
def mlBatteryRecs (d : TelemetryRecord) : List String :=
  match d.battery_health with
  | none => []
  | some bh =>
    if bh < 40 then ["🔋 CRITICAL: Battery health critically low! Replace immediately."]
    else if bh < 60 then ["🔋 Battery health poor. Plan for replacement soon."]
    else if bh < 80 then ["🔋 Battery degrading. Monitor closely."]
    else []

/-- Thermal block of get_ml_recommendations, lines 210-217. -/
def mlThermalRecs (d : TelemetryRecord) : List String :=
  match d.thermal_throttling with
  | none => []
  | some tt =>
    if tt > 30 then ["🌡️ CRITICAL: Severe thermal throttling detected! Clean cooling system immediately."]
    else if tt > 15 then ["🌡️ High thermal throttling. Improve cooling and check thermal paste."]
    else if tt > 5 then ["🌡️ Moderate thermal throttling detected. Monitor temperatures."]
    else []

/-- CPU block of get_ml_recommendations, lines 219-224. -/
def mlCpuRecs (d : TelemetryRecord) : List String :=
  match d.cpu_usage with
  | none => []
  | some cpu =>
    if cpu > 95 then ["💻 CRITICAL: CPU at maximum load constantly! Check for runaway processes."]
    else if cpu > 80 then ["💻 High CPU usage detected. Review running applications."]
    else []

/-- Load block of get_ml_recommendations, lines 226-231. -/
def mlLoadRecs (d : TelemetryRecord) : List String :=
  match d.load_percentage with
  | none => []
  | some load =>
    if load > 95 then ["⚙️ CRITICAL: Equipment overloaded! Reduce load immediately to prevent damage."]
    else if load > 85 then ["⚙️ High load detected. Consider load balancing or capacity increase."]
    else []

/-- Oil block of get_ml_recommendations, lines 233-240. -/
def mlOilRecs (d : TelemetryRecord) : List String :=
  match d.oil_quality with
  | none => []
  | some oil =>
    if oil < 40 then ["🛢️ CRITICAL: Oil quality critical! Change oil immediately."]
    else if oil < 60 then ["🛢️ Oil quality poor. Schedule oil change soon."]
    else if oil < 80 then ["🛢️ Oil quality degrading. Plan for oil change."]
    else []

/-- Noise block of get_ml_recommendations, lines 242-251; the threshold
depends on the equipment type read from the record. -/
def mlNoiseRecs (d : TelemetryRecord) : List String :=
  match d.noise_level with
  | none => []
  | some noise =>
    let threshold := noise_threshold (d.equipment_type.getD "unknown")
    if noise > threshold + 15 then
      ["🔊 CRITICAL: Noise at " ++ numRender noise ++ "dB exceeds safe limits! Inspect for mechanical failure."]
    else if noise > threshold then
      ["🔊 Elevated noise level at " ++ numRender noise ++ "dB. Inspect bearings and alignment."]
    else []

/-- Fan block of get_ml_recommendations, lines 253-258. -/
def mlFanRecs (d : TelemetryRecord) : List String :=
  match d.fan_speed with
  | none => []
  | some fs =>
    if fs > 4500 then ["🌀 Fan running at maximum speed! Check for thermal issues."]
    else if fs < 500 ∧ fs > 0 then ["🌀 CRITICAL: Fan speed too low! Fan may be failing."]
    else []

/-- Efficiency block of get_ml_recommendations, lines 260-265. -/
def mlEffRecs (d : TelemetryRecord) : List String :=
  match d.efficiency_rating with
  | none => []
  | some eff =>
    if eff < 60 then
      ["📉 CRITICAL: Efficiency at " ++ numRender eff ++ "% is critically low! Investigate immediately."]
    else if eff < 75 then
      ["📉 Efficiency at " ++ numRender eff ++ "% is below optimal. Maintenance required."]
    else []

/-- Health-score block of get_ml_recommendations, lines 267-278; the
final branch appends the nominal message only when nothing was collected
before it. -/
def mlHealthRecs (health_score : ℚ) (noneSoFar : Bool) : List String :=
  if health_score < 40 then ["🚨 URGENT: Equipment health critical! Schedule immediate inspection."]
  else if health_score < 50 then ["🚨 Equipment health poor. Schedule maintenance within 3 days."]
  else if health_score < 70 then ["⚠️ Schedule preventive maintenance within the next week."]
  else if health_score < 85 then ["📅 Plan preventive maintenance within 30 days."]
  else if noneSoFar then ["✅ Equipment health is good. Continue regular monitoring."]
  else []

/-- get_ml_recommendations, lines 196-280: the sensor blocks in source
order followed by the health-score block. -/
def get_ml_recommendations (d : TelemetryRecord) (health_score : ℚ) : List String :=
  let sensor := mlBatteryRecs d ++ mlThermalRecs d ++ mlCpuRecs d ++ mlLoadRecs d
    ++ mlOilRecs d ++ mlNoiseRecs d ++ mlFanRecs d ++ mlEffRecs d
  sensor ++ mlHealthRecs health_score sensor.isEmpty

/-- create_analysis_summary, lines 282-351, used by the ML path. -/
def create_analysis_summary (d : TelemetryRecord) (health_score : ℚ) : Analysis :=
  let battery :=
    match d.battery_health with
    | none => "N/A"
    | some bh =>
      if bh < 40 then "Critical" else if bh < 60 then "Poor"
      else if bh < 80 then "Fair" else "Good"
  let thermal :=
    match d.thermal_throttling with
    | none => "Good"
    | some tt =>
      if tt > 30 then "Critical" else if tt > 15 then "High"
      else if tt > 5 then "Moderate" else "Good"
  let mech0 :=
    match d.load_percentage with
    | none => "N/A"
    | some load =>
      if load > 95 then "Overload" else if load > 85 then "High Load" else "Good"
  let mech :=
    match d.oil_quality with
    | none => mech0
    | some oil =>
      if oil < 40 then "Critical"
      else if oil < 60 ∧ mech0 ≠ "Critical" then "Poor" else mech0
  let perf0 :=
    match d.cpu_usage with
    | none => "Good"
    | some cpu =>
      if cpu > 95 then "Critical" else if cpu > 80 then "High Load" else "Good"
  let perf :=
    match d.efficiency_rating with
    | none => perf0
    | some eff =>
      if eff < 60 then "Critical" else if eff < 75 then "Poor" else perf0
  { power_status := "Good", thermal_status := thermal, mechanical_status := mech,
    performance_status := perf, battery_status := battery,
    overall_condition := get_overall_condition health_score }

/-- ml_predict, lines 105-151.  The raw parameter is the estimate the
external regression model returned for the feature vector; the source
clips it to the interval from 0 to 100 and derives everything else from
the clipped value. -/
def ml_predict (raw : ℚ) (eqType : String) (d : TelemetryRecord) : HealthAssessment :=
  let predicted := np_clip raw 0 100
  let risk := calculate_risk_level predicted
  let recs := get_ml_recommendations d predicted
  { health_score := pyRound1 predicted,
    remaining_life_days := calculate_remaining_life eqType predicted,
    maintenance_needed_days := calculate_maintenance_days predicted risk,
    risk_level := risk,
    recommendations :=
      if recs = [] then
        ["✅ Equipment is operating within normal parameters.",
         "Continue regular monitoring and maintenance schedule."]
      else recs,
    critical_issues := recs.filter isCriticalRec,
    warnings := recs.filter isWarningRec,
    analysis := create_analysis_summary d predicted,
    equipment_type := eqType,
    prediction_method := "ml_model" }

/-- The consumer category list of line 384. -/
def consumerTypes : List String := ["laptop", "phone", "tablet", "desktop"]

/-- The industrial category list of line 415. -/
def industrialTypes : List String := ["industrial_machine", "motor", "pump", "compressor", "hvac"]

/-- Penalty of the operating-hours block, lines 372-381. -/
def hoursPenalty : Option ℚ → ℚ
  | none => 0
  | some hours =>
    if hours > 40000 then 30 else if hours > 20000 then 15
    else if hours > 10000 then 5 else 0

/-- Critical issue appended by the operating-hours block. -/
def hoursCrit : Option ℚ → List String
  | none => []
  | some hours =>
    if hours > 40000 then ["⏱️ Operating hours exceed maximum lifespan"] else []

/-- Warning appended by the operating-hours block. -/
def hoursWarn : Option ℚ → List String
  | none => []
  | some hours =>
    if hours > 40000 then []
    else if hours > 20000 then ["⏱️ Operating hours very high"] else []

/-- Penalty of the consumer branch, lines 384-412: battery, CPU and
thermal blocks. -/
def consumerPenalty (d : TelemetryRecord) : ℚ :=
  (match d.battery_health with
   | none => 0
   | some bh => if bh < 40 then 30 else if bh < 60 then 15 else 0)
  + (match d.cpu_usage with
     | none => 0
     | some cpu => if cpu > 95 then 15 else 0)
  + (match d.thermal_throttling with
     | none => 0
     | some tt => if tt > 30 then 25 else if tt > 15 then 15 else 0)

/-- Critical issues of the consumer branch, in append order. -/
def consumerCrit (d : TelemetryRecord) : List String :=
  (match d.battery_health with
   | none => []
   | some bh => if bh < 40 then ["🔋 Battery critically low"] else [])
  ++ (match d.cpu_usage with
      | none => []
      | some cpu => if cpu > 95 then ["💻 CPU at maximum"] else [])
  ++ (match d.thermal_throttling with
      | none => []
      | some tt => if tt > 30 then ["🌡️ Severe thermal throttling"] else [])

/-- Warnings of the consumer branch, in append order. -/
def consumerWarn (d : TelemetryRecord) : List String :=
  (match d.battery_health with
   | none => []
   | some bh => if bh < 40 then [] else if bh < 60 then ["🔋 Battery poor"] else [])
  ++ (match d.thermal_throttling with
      | none => []
      | some tt => if tt > 30 then [] else if tt > 15 then ["🌡️ High thermal throttling"] else [])

/-- Battery status set by the consumer branch (stays N/A otherwise). -/
def batteryStatusRule (d : TelemetryRecord) : String :=
  match d.battery_health with
  | none => "N/A"
  | some bh => if bh < 40 then "Critical" else if bh < 60 then "Poor" else "N/A"

/-- Thermal status set by the consumer branch: only the severe tier
writes the map (line 409); the high tier leaves the initial Good. -/
def thermalStatusRule (d : TelemetryRecord) : String :=
  match d.thermal_throttling with
  | none => "Good"
  | some tt => if tt > 30 then "Critical" else "Good"

/-- Penalty of the industrial branch, lines 415-436: load, oil and
noise blocks. -/
def industrialPenalty (d : TelemetryRecord) : ℚ :=
  (match d.load_percentage with
   | none => 0
   | some load => if load > 95 then 20 else 0)
  + (match d.oil_quality with
     | none => 0
     | some oil => if oil < 40 then 25 else 0)
  + (match d.noise_level with
     | none => 0
     | some noise => if noise > 95 then 18 else 0)

/-- Critical issues of the industrial branch, in append order. -/
def industrialCrit (d : TelemetryRecord) : List String :=
  (match d.load_percentage with
   | none => []
   | some load => if load > 95 then ["⚙️ Equipment overloaded"] else [])
  ++ (match d.oil_quality with
      | none => []
      | some oil => if oil < 40 then ["🛢️ Oil quality critical"] else [])
  ++ (match d.noise_level with
      | none => []
      | some noise =>
        if noise > 95 then ["🔊 Noise at " ++ numRender noise ++ "dB excessive"] else [])

/-- Mechanical status set by the industrial branch: only the overload
tier writes the map (line 422). -/
def mechStatusRule (d : TelemetryRecord) : String :=
  match d.load_percentage with
  | none => "N/A"
  | some load => if load > 95 then "Overload" else "N/A"

/-- rule_based_analyze, lines 353-461.  The score starts at 100, the
operating-hours block always runs, then exactly one category branch
(consumer, industrial, or neither); the accumulated score is clamped to
the interval from 0 to 100 only at the end, and every derived field is
computed from the clamped value. -/
def rule_based_analyze (eqType : String) (d : TelemetryRecord) : HealthAssessment :=
  let isCons := eqType ∈ consumerTypes
  let isInd := eqType ∈ industrialTypes
  let raw : ℚ := 100 - hoursPenalty d.operating_hours
    - (if isCons then consumerPenalty d else 0)
    - (if isCons then 0 else if isInd then industrialPenalty d else 0)
  let crit := hoursCrit d.operating_hours
    ++ (if isCons then consumerCrit d else [])
    ++ (if isCons then [] else if isInd then industrialCrit d else [])
  let warn := hoursWarn d.operating_hours ++ (if isCons then consumerWarn d else [])
  let clamped := max 0 (min 100 raw)
  let risk := calculate_risk_level clamped
  let recs := crit ++ warn
  { health_score := pyRound1 clamped,
    remaining_life_days := calculate_remaining_life eqType clamped,
    maintenance_needed_days := calculate_maintenance_days clamped risk,
    risk_level := risk,
    recommendations :=
      if recs = [] then ["✅ Equipment operating within normal parameters"] else recs,
    critical_issues := crit,
    warnings := warn,
    analysis :=
      { power_status := "Good",
        thermal_status := if isCons then thermalStatusRule d else "Good",
        mechanical_status := if isCons then "N/A" else if isInd then mechStatusRule d else "N/A",
        performance_status := "Good",
        battery_status := if isCons then batteryStatusRule d else "N/A",
        overall_condition := get_overall_condition clamped },
    equipment_type := eqType,
    prediction_method := "rule_based" }

/-- analyze, lines 87-103.  The ml argument is some raw when a model was
loaded and its prediction succeeded with estimate raw; none covers both
a missing model and any ML-path failure, which the source catches and
answers with the rule path. -/
def analyze (ml : Option ℚ) (d : TelemetryRecord) : HealthAssessment :=
  let eqType := d.equipment_type.getD "unknown"
  match ml with
  | some raw => ml_predict raw eqType d
  | none => rule_based_analyze eqType d

/-- What main reads from standard input: either text that fails JSON
parsing, or a parsed telemetry record. -/
inductive ParsedInput where
  | malformed (msg : String)
  | record (r : TelemetryRecord)

/-- The observable outcome of main, lines 513-550: the printed envelope
and the process exit status. -/
structure MainOutcome where
  success : Bool
  prediction : Option HealthAssessment
  error : Option String
  exitCode : ℕ
  deriving Repr

/-- The main function, lines 513-550 (named mainFn because Lean reserves
the name main for executables): a JSON parse failure prints the failure
envelope and exits 1; a parsed record is analyzed (analyze never fails
in the embedding, as the source catches every ML error internally) and
main prints the success envelope and exits 0. -/
def mainFn (ml : Option ℚ) : ParsedInput → MainOutcome
  | .malformed msg =>
    { success := false, prediction := none,
      error := some ("Invalid JSON input: " ++ msg), exitCode := 1 }
  | .record r =>
    { success := true, prediction := some (analyze ml r),
      error := none, exitCode := 0 }

theorem pyTrunc_eq_floor (q : ℚ) (h : 0 ≤ q) : pyTrunc q = ⌊q⌋ := by
  rw [Rat.floor_def, pyTrunc,
    Int.tdiv_eq_ediv (Rat.num_nonneg.mpr h) (by positivity)]

theorem roundHalfEven_le (x : ℚ) (B : ℤ) (h : x ≤ (B : ℚ)) : roundHalfEven x ≤ B := by
  unfold roundHalfEven
  split_ifs with h1 h2 h3
  · exact le_trans (Int.floor_le_floor h) (le_of_eq (Int.floor_intCast B))
  · have hx : (⌊x⌋ : ℚ) ≤ x - 1/2 := by linarith [not_lt.mp h1]
    have : (⌊x⌋ : ℚ) < (B : ℚ) := by linarith
    exact Int.add_one_le_iff.mpr (by exact_mod_cast this)
  · exact le_trans (Int.floor_le_floor h) (le_of_eq (Int.floor_intCast B))
  · have hx : (⌊x⌋ : ℚ) ≤ x - 1/2 := by linarith [not_lt.mp h1]
    have : (⌊x⌋ : ℚ) < (B : ℚ) := by linarith
    exact Int.add_one_le_iff.mpr (by exact_mod_cast this)

theorem le_roundHalfEven (x : ℚ) (A : ℤ) (h : (A : ℚ) ≤ x) : A ≤ roundHalfEven x := by
  have hA : A ≤ ⌊x⌋ := Int.le_floor.mpr h
  unfold roundHalfEven
  split_ifs <;> omega

theorem pyRound1_bounds (x : ℚ) (h0 : 0 ≤ x) (h100 : x ≤ 100) :
    0 ≤ pyRound1 x ∧ pyRound1 x ≤ 100 := by
  unfold pyRound1
  have hu : roundHalfEven (10 * x) ≤ 1000 :=
    roundHalfEven_le (10 * x) 1000 (by push_cast; linarith)
  have hl : (0 : ℤ) ≤ roundHalfEven (10 * x) :=
    le_roundHalfEven (10 * x) 0 (by push_cast; linarith)
  constructor
  · positivity
  · rw [div_le_iff₀ (by norm_num)]
    have hc : ((roundHalfEven (10 * x) : ℤ) : ℚ) ≤ (1000 : ℚ) := by exact_mod_cast hu
    linarith

theorem pyRound1_int (n : ℤ) : pyRound1 (n : ℚ) = (n : ℚ) := by
  unfold pyRound1 roundHalfEven
  have hf : ⌊(10 : ℚ) * n⌋ = 10 * n := by
    rw [show (10:ℚ) * n = ((10 * n : ℤ) : ℚ) by push_cast; ring, Int.floor_intCast]
  rw [hf]
  rw [if_pos (by push_cast; norm_num)]
  push_cast
  ring

/-- C3: risk_level is a pure function of health_score: at least 85 gives
low, between 70 and 85 medium, between 50 and 70 high, below 50
critical; 85 maps to low while 84 maps to medium; and a higher score
never yields a strictly worse risk tier (rank via riskSeverity). -/
theorem risk_level_tiers_monotone :
    (∀ s : ℚ,
      (85 ≤ s → calculate_risk_level s = "low") ∧
      (70 ≤ s → s < 85 → calculate_risk_level s = "medium") ∧
      (50 ≤ s → s < 70 → calculate_risk_level s = "high") ∧
      (s < 50 → calculate_risk_level s = "critical")) ∧
    calculate_risk_level 85 = "low" ∧ calculate_risk_level 84 = "medium" ∧
    (∀ s t : ℚ, s ≤ t →
      riskSeverity (calculate_risk_level t) ≤ riskSeverity (calculate_risk_level s)) := by
  refine ⟨fun s => ⟨?_, ?_, ?_, ?_⟩, by norm_num [calculate_risk_level],
    by norm_num [calculate_risk_level], ?_⟩
  · intro h; rw [calculate_risk_level, if_pos h]
  · intro h1 h2
    rw [calculate_risk_level, if_neg (by linarith : ¬ s ≥ 85), if_pos h1]
  · intro h1 h2
    rw [calculate_risk_level, if_neg (by linarith : ¬ s ≥ 85),
      if_neg (by linarith : ¬ s ≥ 70), if_pos h1]
  · intro h
    rw [calculate_risk_level, if_neg (by linarith : ¬ s ≥ 85),
      if_neg (by linarith : ¬ s ≥ 70), if_neg (by linarith : ¬ s ≥ 50)]
  · intro s t hst
    unfold calculate_risk_level
    split_ifs <;> simp [riskSeverity] <;> linarith

theorem risk_level_tiers_monotone_witness :
    calculate_risk_level 90 = "low" ∧ calculate_risk_level 84 = "medium" ∧
    riskSeverity (calculate_risk_level 85) ≤ riskSeverity (calculate_risk_level 84) :=
  ⟨(risk_level_tiers_monotone.1 90).1 (by norm_num),
   (risk_level_tiers_monotone.1 84).2.1 (by norm_num) (by norm_num),
   risk_level_tiers_monotone.2.2.2 84 85 (by norm_num)⟩

theorem base_life_days_pos (t : String) : 0 < base_life_days t := by
  unfold base_life_days; split_ifs <;> norm_num

/-- C4: remaining_life_days is the floor of the baseline for the
equipment type times score over 100, with the documented baseline table
and laptop as the default for unknown types; on scores from 0 to 100
the result is a non-negative integer never exceeding the baseline. -/
theorem remaining_life_floor_table :
    (∀ (t : String) (s : ℚ), 0 ≤ s → s ≤ 100 →
      calculate_remaining_life t s = ⌊(base_life_days t : ℚ) * (s / 100)⌋ ∧
      0 ≤ calculate_remaining_life t s ∧
      calculate_remaining_life t s ≤ base_life_days t) ∧
    base_life_days "laptop" = 1825 ∧ base_life_days "phone" = 1095 ∧
    base_life_days "tablet" = 1460 ∧ base_life_days "desktop" = 2555 ∧
    base_life_days "industrial_machine" = 5475 ∧ base_life_days "motor" = 7300 ∧
    base_life_days "pump" = 5475 ∧ base_life_days "compressor" = 5475 ∧
    base_life_days "hvac" = 5475 ∧
    (∀ t : String, t ∉ ["laptop", "phone", "tablet", "desktop", "industrial_machine",
        "motor", "pump", "compressor", "hvac"] → base_life_days t = 1825) := by
  refine ⟨fun t s h0 h100 => ?_, by decide, by decide, by decide, by decide, by decide,
    by decide, by decide, by decide, by decide, fun t ht => ?_⟩
  · have hb : (0 : ℚ) ≤ (base_life_days t : ℚ) := by
      exact_mod_cast le_of_lt (base_life_days_pos t)
    have hprod : 0 ≤ (base_life_days t : ℚ) * (s / 100) := by positivity
    have heq : calculate_remaining_life t s = ⌊(base_life_days t : ℚ) * (s / 100)⌋ :=
      pyTrunc_eq_floor _ hprod
    refine ⟨heq, ?_, ?_⟩
    · rw [heq]; exact Int.floor_nonneg.mpr hprod
    · rw [heq]
      have : (base_life_days t : ℚ) * (s / 100) ≤ (base_life_days t : ℚ) := by
        nlinarith
      calc ⌊(base_life_days t : ℚ) * (s / 100)⌋ ≤ ⌊(base_life_days t : ℚ)⌋ :=
            Int.floor_le_floor this
        _ = base_life_days t := Int.floor_intCast _
  · simp only [List.mem_cons, List.not_mem_nil, or_false] at ht
    push_neg at ht
    obtain ⟨h1, h2, h3, h4, h5, h6, h7, h8, h9⟩ := ht
    simp [base_life_days, h1, h2, h3, h4, h5, h6, h7, h8, h9]

theorem remaining_life_floor_table_witness :
    calculate_remaining_life "pump" 55 = ⌊(base_life_days "pump" : ℚ) * (55 / 100)⌋ ∧
    0 ≤ calculate_remaining_life "pump" 55 ∧
    calculate_remaining_life "pump" 55 ≤ base_life_days "pump" ∧
    base_life_days "zamboni" = 1825 :=
  ⟨(remaining_life_floor_table.1 "pump" 55 (by norm_num) (by norm_num)).1,
   (remaining_life_floor_table.1 "pump" 55 (by norm_num) (by norm_num)).2.1,
   (remaining_life_floor_table.1 "pump" 55 (by norm_num) (by norm_num)).2.2,
   remaining_life_floor_table.2.2.2.2.2.2.2.2.2.2 "zamboni" (by decide)⟩

theorem clamp_bounds (x : ℚ) : 0 ≤ max 0 (min 100 x) ∧ max 0 (min 100 x) ≤ 100 :=
  ⟨le_max_left 0 _, max_le (by norm_num) (min_le_left _ _)⟩

theorem np_clip_bounds (x : ℚ) : 0 ≤ np_clip x 0 100 ∧ np_clip x 0 100 ≤ 100 := by
  unfold np_clip
  split_ifs <;> constructor <;> linarith

/-- C1: on both prediction paths the returned health_score lies between
0 and 100: the ML path derives every field from the model estimate
clipped to that interval, and the rule path from its accumulated score
clamped to that interval. -/
theorem health_score_in_range :
    (∀ (t : String) (d : TelemetryRecord),
      ∃ s : ℚ, (rule_based_analyze t d).health_score = pyRound1 s ∧ 0 ≤ s ∧ s ≤ 100 ∧
        (rule_based_analyze t d).risk_level = calculate_risk_level s ∧
        (rule_based_analyze t d).remaining_life_days = calculate_remaining_life t s ∧
        0 ≤ (rule_based_analyze t d).health_score ∧
        (rule_based_analyze t d).health_score ≤ 100) ∧
    (∀ (raw : ℚ) (t : String) (d : TelemetryRecord),
      (ml_predict raw t d).health_score = pyRound1 (np_clip raw 0 100) ∧
      0 ≤ np_clip raw 0 100 ∧ np_clip raw 0 100 ≤ 100 ∧
      (ml_predict raw t d).risk_level = calculate_risk_level (np_clip raw 0 100) ∧
      0 ≤ (ml_predict raw t d).health_score ∧
      (ml_predict raw t d).health_score ≤ 100) := by
  constructor
  · intro t d
    obtain ⟨h0, h100⟩ := clamp_bounds (100 - hoursPenalty d.operating_hours
      - (if t ∈ consumerTypes then consumerPenalty d else 0)
      - (if t ∈ consumerTypes then 0
         else if t ∈ industrialTypes then industrialPenalty d else 0))
    exact ⟨_, rfl, h0, h100, rfl, rfl,
      (pyRound1_bounds _ h0 h100).1, (pyRound1_bounds _ h0 h100).2⟩
  · intro raw t d
    obtain ⟨h0, h100⟩ := np_clip_bounds raw
    exact ⟨rfl, h0, h100, rfl,
      (pyRound1_bounds _ h0 h100).1, (pyRound1_bounds _ h0 h100).2⟩

/-- C2: the feature encoder always yields 17 entries in the fixed
training order, substituting the documented default for every absent
field, whatever value the external label encoder produced for the
equipment type; and the record with equipment_type pump and oil_quality
35 yields 35 in the oil slot and the defaults everywhere else. -/
theorem feature_vector_exact :
    (∀ (enc : ℚ) (d : TelemetryRecord),
      (prepare_features enc d).length = 17 ∧
      (prepare_features enc d).get? 0 = some enc ∧
      (prepare_features enc d).get? 1 = some (d.operating_hours.getD 0) ∧
      (prepare_features enc d).get? 2 = some (d.battery_health.getD 100) ∧
      (prepare_features enc d).get? 3 = some (d.cpu_usage.getD 50) ∧
      (prepare_features enc d).get? 4 = some (d.ram_usage.getD 8) ∧
      (prepare_features enc d).get? 5 = some (d.thermal_throttling.getD 0) ∧
      (prepare_features enc d).get? 6 = some (d.gpu_usage.getD 0) ∧
      (prepare_features enc d).get? 7 = some (d.fan_speed.getD 2000) ∧
      (prepare_features enc d).get? 8 = some (d.power_consumption.getD 50) ∧
      (prepare_features enc d).get? 9 = some (d.screen_brightness.getD 50) ∧
      (prepare_features enc d).get? 10 = some (d.network_activity.getD 0) ∧
      (prepare_features enc d).get? 11 = some (d.load_percentage.getD 0) ∧
      (prepare_features enc d).get? 12 = some (d.noise_level.getD 0) ∧
      (prepare_features enc d).get? 13 = some (d.rotation_speed.getD 0) ∧
      (prepare_features enc d).get? 14 = some (d.current_draw.getD 0) ∧
      (prepare_features enc d).get? 15 = some (d.oil_quality.getD 100) ∧
      (prepare_features enc d).get? 16 = some (d.efficiency_rating.getD 100)) ∧
    (∀ enc : ℚ,
      prepare_features enc { equipment_type := some "pump", oil_quality := some 35 } =
        [enc, 0, 100, 50, 8, 0, 0, 2000, 50, 50, 0, 0, 0, 0, 0, 35, 100]) :=
  ⟨fun enc d => ⟨rfl, rfl, rfl, rfl, rfl, rfl, rfl, rfl, rfl, rfl, rfl, rfl, rfl,
    rfl, rfl, rfl, rfl, rfl⟩,
   fun enc => rfl⟩

/-- C5 counterexample: the claim says the operating-hours penalties are
10, 20 and 30 against category-specific thresholds, so a score reached
through the hours block alone would be 100, 90, 80 or 70; but a laptop
record with 15000 operating hours scores 95 (the code subtracts 5 at
the fixed 10000-hour tier). -/
theorem hours_penalty_claim_false :
    (rule_based_analyze "laptop"
      { equipment_type := some "laptop", operating_hours := some 15000 }).health_score = 95 ∧
    (95 : ℚ) ≠ 100 - 0 ∧ (95 : ℚ) ≠ 100 - 10 ∧
    (95 : ℚ) ≠ 100 - 20 ∧ (95 : ℚ) ≠ 100 - 30 := by
  refine ⟨?_, by norm_num, by norm_num, by norm_num, by norm_num⟩
  have h1 : pyRound1 ((95 : ℤ) : ℚ) = ((95 : ℤ) : ℚ) := pyRound1_int 95
  norm_num [rule_based_analyze, hoursPenalty, consumerPenalty, industrialPenalty,
    consumerTypes, industrialTypes] at h1 ⊢
  convert h1 using 2 <;> norm_num

theorem rule_score_only_hours (t : String) (d : TelemetryRecord)
    (hb : d.battery_health = none) (hc : d.cpu_usage = none)
    (ht : d.thermal_throttling = none) (hl : d.load_percentage = none)
    (ho : d.oil_quality = none) (hn : d.noise_level = none) :
    (rule_based_analyze t d).health_score
      = pyRound1 (max 0 (min 100 (100 - hoursPenalty d.operating_hours))) ∧
    (rule_based_analyze t d).critical_issues = hoursCrit d.operating_hours ∧
    (rule_based_analyze t d).warnings = hoursWarn d.operating_hours := by
  refine ⟨?_, ?_, ?_⟩ <;>
    simp [rule_based_analyze, consumerPenalty, industrialPenalty, consumerCrit,
      industrialCrit, consumerWarn, hb, hc, ht, hl, ho, hn]

/-- C5 amended: the operating-hours block uses the fixed thresholds
10000, 20000 and 40000 for every equipment type (there is no per-type
profile), with penalties 5, 15 and 30; only the top tier is flagged as
a critical issue, the middle tier is a warning, and the lowest tier
carries no message at all. -/
theorem hours_penalty_actual (t : String) (h : ℚ) :
    ((rule_based_analyze t
        { equipment_type := some t, operating_hours := some h }).health_score
      = 100 - (if h > 40000 then 30 else if h > 20000 then 15
               else if h > 10000 then 5 else 0)) ∧
    (h > 40000 → "⏱️ Operating hours exceed maximum lifespan" ∈
      (rule_based_analyze t
        { equipment_type := some t, operating_hours := some h }).critical_issues) ∧
    (h > 20000 → ¬ h > 40000 →
      "⏱️ Operating hours very high" ∈
        (rule_based_analyze t
          { equipment_type := some t, operating_hours := some h }).warnings ∧
      (rule_based_analyze t
        { equipment_type := some t, operating_hours := some h }).critical_issues = []) ∧
    (¬ h > 20000 →
      (rule_based_analyze t
        { equipment_type := some t, operating_hours := some h }).critical_issues = [] ∧
      (rule_based_analyze t
        { equipment_type := some t, operating_hours := some h }).warnings = []) := by
  obtain ⟨hs, hcr, hwa⟩ := rule_score_only_hours t
    { equipment_type := some t, operating_hours := some h } rfl rfl rfl rfl rfl rfl
  refine ⟨?_, fun h40 => ?_, fun h20 h40 => ?_, fun h20 => ?_⟩
  · rw [hs]
    by_cases h40 : h > 40000
    · rw [if_pos h40]
      simp only [hoursPenalty, if_pos h40]
      have h1 : pyRound1 ((70:ℤ):ℚ) = ((70:ℤ):ℚ) := pyRound1_int 70
      norm_num at h1
      rw [show max 0 (min 100 (100 - (30:ℚ))) = 70 by norm_num, h1]
      norm_num
    · by_cases h20 : h > 20000
      · rw [if_neg h40, if_pos h20]
        simp only [hoursPenalty, if_neg h40, if_pos h20]
        have h1 : pyRound1 ((85:ℤ):ℚ) = ((85:ℤ):ℚ) := pyRound1_int 85
        norm_num at h1
        rw [show max 0 (min 100 (100 - (15:ℚ))) = 85 by norm_num, h1]
        norm_num
      · by_cases h10 : h > 10000
        · rw [if_neg h40, if_neg h20, if_pos h10]
          simp only [hoursPenalty, if_neg h40, if_neg h20, if_pos h10]
          have h1 : pyRound1 ((95:ℤ):ℚ) = ((95:ℤ):ℚ) := pyRound1_int 95
          norm_num at h1
          rw [show max 0 (min 100 (100 - (5:ℚ))) = 95 by norm_num, h1]
          norm_num
        · rw [if_neg h40, if_neg h20, if_neg h10]
          simp only [hoursPenalty, if_neg h40, if_neg h20, if_neg h10]
          have h1 : pyRound1 ((100:ℤ):ℚ) = ((100:ℤ):ℚ) := pyRound1_int 100
          norm_num at h1
          rw [show max 0 (min 100 (100 - (0:ℚ))) = 100 by norm_num, h1]
          norm_num
  · rw [hcr]; simp [hoursCrit, h40]
  · rw [hwa, hcr]
    exact ⟨by simp [hoursWarn, h40, h20], by simp [hoursCrit, h40]⟩
  · have h40 : ¬ h > 40000 := fun hgt => h20 (by linarith)
    rw [hcr, hwa]
    exact ⟨by simp [hoursCrit, h40], by simp [hoursWarn, h40, h20]⟩

theorem hours_penalty_actual_witness :
    ("⏱️ Operating hours exceed maximum lifespan" ∈
      (rule_based_analyze "hvac"
        { equipment_type := some "hvac", operating_hours := some 50000 }).critical_issues) ∧
    ("⏱️ Operating hours very high" ∈
      (rule_based_analyze "laptop"
        { equipment_type := some "laptop", operating_hours := some 25000 }).warnings) ∧
    ((rule_based_analyze "pump"
        { equipment_type := some "pump", operating_hours := some 5000 }).critical_issues = []) :=
  ⟨(hours_penalty_actual "hvac" 50000).2.1 (by norm_num),
   ((hours_penalty_actual "laptop" 25000).2.2.1 (by norm_num) (by norm_num)).1,
   ((hours_penalty_actual "pump" 5000).2.2.2 (by norm_num)).1⟩

/-- C6 counterexample: for the industrial scenario record the rule path
clamps the score to 55, whose risk tier is high, so
calculate_maintenance_days returns 7 — not the 3 the claim states
(3 would require the critical tier, score below 50). -/
theorem pump_scenario_claim_false :
    (rule_based_analyze "pump"
      { equipment_type := some "pump", load_percentage := some 97,
        oil_quality := some 35 }).maintenance_needed_days = 7 ∧ (7:ℤ) ≠ 3 := by
  have hnc : ¬ ("pump" ∈ consumerTypes) := by decide
  have hni : ("pump" ∈ industrialTypes) := by decide
  refine ⟨?_, by norm_num⟩
  norm_num [rule_based_analyze, industrialPenalty, hnc, hni,
    hoursPenalty, calculate_maintenance_days, calculate_risk_level]
  decide

/-- C6 amended: for the record with equipment_type pump, load_percentage
97 and oil_quality 35 the rule path reports mechanical_status Overload,
a health_score of exactly 55 (hence at most 55), and
maintenance_needed_days 7 (risk tier high), not 3. -/
theorem pump_scenario_actual :
    (rule_based_analyze "pump"
      { equipment_type := some "pump", load_percentage := some 97,
        oil_quality := some 35 }).analysis.mechanical_status = "Overload" ∧
    (rule_based_analyze "pump"
      { equipment_type := some "pump", load_percentage := some 97,
        oil_quality := some 35 }).health_score = 55 ∧
    (rule_based_analyze "pump"
      { equipment_type := some "pump", load_percentage := some 97,
        oil_quality := some 35 }).health_score ≤ 55 ∧
    (rule_based_analyze "pump"
      { equipment_type := some "pump", load_percentage := some 97,
        oil_quality := some 35 }).maintenance_needed_days = 7 ∧
    "⚙️ Equipment overloaded" ∈
      (rule_based_analyze "pump"
        { equipment_type := some "pump", load_percentage := some 97,
          oil_quality := some 35 }).critical_issues ∧
    "🛢️ Oil quality critical" ∈
      (rule_based_analyze "pump"
        { equipment_type := some "pump", load_percentage := some 97,
          oil_quality := some 35 }).critical_issues := by
  have hnc : ¬ ("pump" ∈ consumerTypes) := by decide
  have hni : ("pump" ∈ industrialTypes) := by decide
  have h1 : pyRound1 ((55:ℤ):ℚ) = ((55:ℤ):ℚ) := pyRound1_int 55
  norm_num at h1
  have hs : (rule_based_analyze "pump"
      { equipment_type := some "pump", load_percentage := some 97,
        oil_quality := some 35 }).health_score = 55 := by
    norm_num [rule_based_analyze, industrialPenalty, hnc, hni, hoursPenalty]
    convert h1 using 2 <;> norm_num
  refine ⟨?_, hs, le_of_eq hs, ?_, ?_, ?_⟩
  · norm_num [rule_based_analyze, mechStatusRule, hnc, hni]
  · norm_num [rule_based_analyze, industrialPenalty, hnc, hni,
      hoursPenalty, calculate_maintenance_days, calculate_risk_level]
    decide
  · norm_num [rule_based_analyze, industrialCrit, hnc, hni, hoursCrit]
  · norm_num [rule_based_analyze, industrialCrit, hnc, hni, hoursCrit]

/-- C7 counterexample: the rule engine has no fan_speed branch, so a
laptop record with fan_speed 5000 (claimed penalty 10) and one with
fan_speed 300 (claimed penalty 15) both keep the full score 100; rule
path scores never differ on fan_speed alone. -/
theorem fan_speed_claim_false :
    (rule_based_analyze "laptop"
      { equipment_type := some "laptop", fan_speed := some 5000 }).health_score = 100 ∧
    (rule_based_analyze "laptop"
      { equipment_type := some "laptop", fan_speed := some 300 }).health_score = 100 ∧
    (100:ℚ) ≠ 100 - 10 ∧ (100:ℚ) ≠ 100 - 15 := by
  have h1 : pyRound1 ((100:ℤ):ℚ) = ((100:ℤ):ℚ) := pyRound1_int 100
  norm_num at h1
  obtain ⟨hs1, -, -⟩ := rule_score_only_hours "laptop"
    { equipment_type := some "laptop", fan_speed := some 5000 } rfl rfl rfl rfl rfl rfl
  obtain ⟨hs2, -, -⟩ := rule_score_only_hours "laptop"
    { equipment_type := some "laptop", fan_speed := some 300 } rfl rfl rfl rfl rfl rfl
  refine ⟨?_, ?_, by norm_num, by norm_num⟩ <;>
    [rw [hs1]; rw [hs2]] <;>
    · rw [show max 0 (min 100 (100 - hoursPenalty none)) = 100 by
        norm_num [hoursPenalty], h1]

/-- C7 amended: the rule engine never reads fan_speed, so the whole rule
assessment is invariant in it; the fan thresholds live in the ML-path
recommendation generator, where fan_speed above 4500 adds the
maximum-speed advisory and a positive fan_speed below 500 adds the
CRITICAL low-speed advisory, the latter landing in critical_issues of
the ML assessment. -/
theorem fan_speed_actual :
    (∀ (t : String) (d : TelemetryRecord) (v : Option ℚ),
      rule_based_analyze t { d with fan_speed := v } = rule_based_analyze t d) ∧
    (∀ (d : TelemetryRecord) (h q : ℚ), 4500 < q →
      "🌀 Fan running at maximum speed! Check for thermal issues." ∈
        get_ml_recommendations { d with fan_speed := some q } h) ∧
    (∀ (raw : ℚ) (t : String) (d : TelemetryRecord) (q : ℚ), 0 < q → q < 500 →
      "🌀 CRITICAL: Fan speed too low! Fan may be failing." ∈
        (ml_predict raw t { d with fan_speed := some q }).critical_issues) := by
  refine ⟨fun t d v => rfl, fun d h q h45 => ?_, fun raw t d q h0 h500 => ?_⟩
  · simp [get_ml_recommendations, mlFanRecs, h45]
  · have h45 : ¬ (q > 4500) := by linarith
    show _ ∈ List.filter _ _
    apply List.mem_filter.mpr
    refine ⟨?_, by decide⟩
    simp [get_ml_recommendations, mlFanRecs, h45, h0, h500]

theorem fan_speed_actual_witness :
    rule_based_analyze "laptop"
      { equipment_type := some "laptop", battery_health := some 30, fan_speed := some 5000 }
      = rule_based_analyze "laptop"
        { equipment_type := some "laptop", battery_health := some 30 } ∧
    "🌀 Fan running at maximum speed! Check for thermal issues." ∈
      get_ml_recommendations
        { equipment_type := some "laptop", fan_speed := some 5000 } 90 ∧
    "🌀 CRITICAL: Fan speed too low! Fan may be failing." ∈
      (ml_predict 90 "laptop"
        { equipment_type := some "laptop", fan_speed := some 300 }).critical_issues :=
  ⟨fan_speed_actual.1 "laptop" { equipment_type := some "laptop", battery_health := some 30 }
      (some 5000),
   fan_speed_actual.2.1 { equipment_type := some "laptop" } 90 5000 (by norm_num),
   fan_speed_actual.2.2 90 "laptop" { equipment_type := some "laptop" } 300
      (by norm_num) (by norm_num)⟩

/-- C8 counterexample: a parseable record with no equipment_type field
does not fail: main treats it as equipment type unknown and returns the
success envelope with exit status 0, against the claim that it yields
success false and a non-zero exit. -/
theorem envelope_claim_false :
    ({} : TelemetryRecord).equipment_type = none ∧
    (mainFn none (.record {})).success = true ∧
    (mainFn none (.record {})).exitCode = 0 ∧
    (mainFn none (.record {})).prediction = some (analyze none {}) :=
  ⟨rfl, rfl, rfl, rfl⟩

/-- C8 amended: non-parseable input yields the failure envelope with no
prediction and exit status 1; every parseable record — including one
with no equipment_type field, which is analyzed as equipment type
unknown — yields the success envelope carrying the assessment and exit
status 0. -/
theorem envelope_actual :
    (∀ (ml : Option ℚ) (msg : String),
      (mainFn ml (.malformed msg)).success = false ∧
      (mainFn ml (.malformed msg)).prediction = none ∧
      (mainFn ml (.malformed msg)).error = some ("Invalid JSON input: " ++ msg) ∧
      (mainFn ml (.malformed msg)).exitCode = 1) ∧
    (∀ (ml : Option ℚ) (r : TelemetryRecord),
      (mainFn ml (.record r)).success = true ∧
      (mainFn ml (.record r)).prediction = some (analyze ml r) ∧
      (mainFn ml (.record r)).error = none ∧
      (mainFn ml (.record r)).exitCode = 0 ∧
      (analyze ml r).equipment_type = r.equipment_type.getD "unknown") :=
  ⟨fun _ _ => ⟨rfl, rfl, rfl, rfl⟩,
   fun ml r => ⟨rfl, rfl, rfl, rfl, by cases ml <;> rfl⟩⟩

theorem hoursPenalty_cases (oh : Option ℚ) :
    hoursPenalty oh = 0 ∨ hoursPenalty oh = 5 ∨ hoursPenalty oh = 15 ∨ hoursPenalty oh = 30 := by
  cases oh with
  | none => left; rfl
  | some h => simp only [hoursPenalty]; split_ifs <;> simp

/-- C10: when the equipment type resolved by the program is none of the
nine recognized types (the concatenation of the consumer and industrial
lists), the rule path reads only operating_hours — any two such records
with equal hours get equal scores — and since the hours penalty is at
most 30 the health_score is at least 70 and the risk tier is low or
medium, however degraded every other sensor value is. -/
theorem unknown_type_rules_minimal :
    (consumerTypes ++ industrialTypes = ["laptop", "phone", "tablet", "desktop",
      "industrial_machine", "motor", "pump", "compressor", "hvac"]) ∧
    ∀ (d d2 : TelemetryRecord),
      d.equipment_type.getD "unknown" ∉ consumerTypes ++ industrialTypes →
      d2.equipment_type = d.equipment_type →
      d2.operating_hours = d.operating_hours →
      ((analyze none d2).health_score = (analyze none d).health_score ∧
       70 ≤ (analyze none d).health_score ∧
       ((analyze none d).risk_level = "low" ∨ (analyze none d).risk_level = "medium")) := by
  refine ⟨rfl, fun d d2 hmem he ho => ?_⟩
  have hnc : d.equipment_type.getD "unknown" ∉ consumerTypes :=
    fun h => hmem (List.mem_append_left _ h)
  have hni : d.equipment_type.getD "unknown" ∉ industrialTypes :=
    fun h => hmem (List.mem_append_right _ h)
  have hnc2 : d2.equipment_type.getD "unknown" ∉ consumerTypes := by rw [he]; exact hnc
  have hni2 : d2.equipment_type.getD "unknown" ∉ industrialTypes := by rw [he]; exact hni
  have hs : (analyze none d).health_score
      = pyRound1 (max 0 (min 100 (100 - hoursPenalty d.operating_hours))) := by
    show (rule_based_analyze _ d).health_score = _
    simp [rule_based_analyze, hnc, hni]
  have hs2 : (analyze none d2).health_score
      = pyRound1 (max 0 (min 100 (100 - hoursPenalty d2.operating_hours))) := by
    show (rule_based_analyze _ d2).health_score = _
    simp [rule_based_analyze, hnc2, hni2]
  have hr : (analyze none d).risk_level
      = calculate_risk_level (max 0 (min 100 (100 - hoursPenalty d.operating_hours))) := by
    show (rule_based_analyze _ d).risk_level = _
    simp [rule_based_analyze, hnc, hni]
  refine ⟨by rw [hs, hs2, ho], ?_, ?_⟩
  · rw [hs]
    rcases hoursPenalty_cases d.operating_hours with h | h | h | h <;> rw [h]
    · rw [show max 0 (min 100 (100 - (0:ℚ))) = ((100:ℤ):ℚ) by norm_num, pyRound1_int]
      norm_num
    · rw [show max 0 (min 100 (100 - (5:ℚ))) = ((95:ℤ):ℚ) by norm_num, pyRound1_int]
      norm_num
    · rw [show max 0 (min 100 (100 - (15:ℚ))) = ((85:ℤ):ℚ) by norm_num, pyRound1_int]
      norm_num
    · rw [show max 0 (min 100 (100 - (30:ℚ))) = ((70:ℤ):ℚ) by norm_num, pyRound1_int]
      norm_num
  · rw [hr]
    rcases hoursPenalty_cases d.operating_hours with h | h | h | h <;> rw [h] <;>
      norm_num [calculate_risk_level]

theorem unknown_type_rules_minimal_witness :
    (analyze none { equipment_type := some "drone", oil_quality := some 5, battery_health := some 1 }).health_score
      = (analyze none { equipment_type := some "drone", load_percentage := some 99, thermal_throttling := some 90 }).health_score ∧
    70 ≤ (analyze none { equipment_type := some "drone", load_percentage := some 99, thermal_throttling := some 90 }).health_score ∧
    ((analyze none { equipment_type := some "drone", load_percentage := some 99, thermal_throttling := some 90 }).risk_level = "low" ∨
     (analyze none { equipment_type := some "drone", load_percentage := some 99, thermal_throttling := some 90 }).risk_level = "medium") :=
  unknown_type_rules_minimal.2
    { equipment_type := some "drone", load_percentage := some 99, thermal_throttling := some 90 }
    { equipment_type := some "drone", oil_quality := some 5, battery_health := some 1 }
    (by decide) rfl rfl

theorem prefixOfB_mem {n h : List Char} (hp : prefixOfB n h = true) :
    ∀ c ∈ n, c ∈ h := by
  induction n generalizing h with
  | nil => intro c hc; exact absurd hc (List.not_mem_nil c)
  | cons a as ih =>
    cases h with
    | nil => exact absurd hp (by simp [prefixOfB])
    | cons b bs =>
      simp only [prefixOfB, Bool.and_eq_true, beq_iff_eq] at hp
      intro c hc
      rcases List.mem_cons.mp hc with hc | hc
      · exact hc ▸ hp.1 ▸ List.mem_cons_self b bs
      · exact List.mem_cons_of_mem b (ih hp.2 c hc)

theorem subListB_mem {n h : List Char} (hs : subListB n h = true) :
    ∀ c ∈ n, c ∈ h := by
  induction h with
  | nil => exact prefixOfB_mem hs
  | cons b bs ih =>
    simp only [subListB, Bool.or_eq_true] at hs
    rcases hs with hs | hs
    · exact prefixOfB_mem hs
    · exact fun c hc => List.mem_cons_of_mem b (ih hs c hc)

theorem subListB_eq_false {n h : List Char} (c : Char) (hc : c ∈ n) (hh : c ∉ h) :
    subListB n h = false := by
  cases e : subListB n h with
  | false => rfl
  | true => exact absurd (subListB_mem e c hc) hh

theorem prefixOfB_append {n h t : List Char} (hp : prefixOfB n h = true) :
    prefixOfB n (h ++ t) = true := by
  induction n generalizing h with
  | nil => rfl
  | cons a as ih =>
    cases h with
    | nil => exact absurd hp (by simp [prefixOfB])
    | cons b bs =>
      simp only [prefixOfB, Bool.and_eq_true, beq_iff_eq] at hp
      simp only [List.cons_append, prefixOfB, Bool.and_eq_true, beq_iff_eq]
      exact ⟨hp.1, ih hp.2⟩

theorem subListB_nil_left (h : List Char) : subListB [] h = true := by
  cases h <;> simp [subListB, prefixOfB]

theorem subListB_append_left {n h₁ : List Char} (h₂ : List Char)
    (hs : subListB n h₁ = true) : subListB n (h₁ ++ h₂) = true := by
  induction h₁ with
  | nil =>
    cases n with
    | nil => exact subListB_nil_left h₂
    | cons a as => exact absurd hs (by simp [subListB, prefixOfB])
  | cons b bs ih =>
    simp only [subListB, Bool.or_eq_true] at hs
    simp only [List.cons_append, subListB, Bool.or_eq_true]
    rcases hs with hs | hs
    · exact Or.inl (prefixOfB_append hs)
    · exact Or.inr (ih hs)

theorem digitChar_safe (n : ℕ) : digitChar n ∈ ("0123456789-/").data := by
  unfold digitChar; split_ifs <;> decide

theorem natDigitsAux_safe :
    ∀ fuel n : ℕ, ∀ c ∈ natDigitsAux fuel n, c ∈ ("0123456789-/").data := by
  intro fuel
  induction fuel with
  | zero => intro n c hc; exact absurd hc (by simp [natDigitsAux])
  | succ f ih =>
    intro n c hc
    cases n with
    | zero => exact absurd hc (by simp [natDigitsAux])
    | succ m =>
      simp only [natDigitsAux, List.mem_append, List.mem_singleton] at hc
      rcases hc with hc | hc
      · exact ih _ c hc
      · exact hc ▸ digitChar_safe _

theorem natStr_safe (n : ℕ) : ∀ c ∈ (natStr n).data, c ∈ ("0123456789-/").data := by
  unfold natStr
  split_ifs
  · intro c hc; simp at hc; simp [hc]
  · exact natDigitsAux_safe n n

theorem numRender_safe (q : ℚ) : ∀ c ∈ (numRender q).data, c ∈ ("0123456789-/").data := by
  unfold numRender
  intro c hc
  simp only [String.data_append, List.mem_append] at hc
  rcases hc with (hc | hc) | hc
  · split_ifs at hc
    · simp at hc; simp [hc]
    · simp at hc
  · exact natStr_safe _ c hc
  · split_ifs at hc
    · simp at hc
    · simp only [String.data_append, List.mem_append] at hc
      rcases hc with hc | hc
      · simp at hc; simp [hc]
      · exact natStr_safe _ c hc

theorem char_not_in_interp (c : Char) (pre suf : String) (q : ℚ)
    (h1 : c ∉ pre.data) (h2 : c ∉ suf.data) (h3 : c ∉ ("0123456789-/").data) :
    c ∉ (pre ++ numRender q ++ suf).data := by
  simp only [String.data_append, List.mem_append]
  rintro ((hc | hc) | hc)
  · exact h1 hc
  · exact h3 (numRender_safe q c hc)
  · exact h2 hc

theorem pyIn_false_of_char {needle hay : String} (c : Char)
    (hc : c ∈ needle.data) (hn : c ∉ hay.data) : pyIn needle hay = false :=
  subListB_eq_false c hc hn

theorem isWarningRec_false_of_critical {r : String} (h : pyIn "CRITICAL" r = true) :
    isWarningRec r = false := by
  unfold isWarningRec
  rw [h]
  simp

theorem pyIn_interp_left (needle pre : String) (mid suf : String)
    (h : pyIn needle pre = true) : pyIn needle (pre ++ mid ++ suf) = true := by
  unfold pyIn at h ⊢
  simp only [String.data_append]
  rw [List.append_assoc]
  exact subListB_append_left _ h

theorem noiseCritStr_safe (q : ℚ) :
    isWarningRec ("🔊 CRITICAL: Noise at " ++ numRender q
      ++ "dB exceeds safe limits! Inspect for mechanical failure.") = false :=
  isWarningRec_false_of_critical
    (pyIn_interp_left "CRITICAL" "🔊 CRITICAL: Noise at " _ _ (by decide))

theorem noiseElevStr_safe (q : ℚ) :
    isCriticalRec ("🔊 Elevated noise level at " ++ numRender q
      ++ "dB. Inspect bearings and alignment.") = false := by
  unfold isCriticalRec
  rw [pyIn_false_of_char 'C' (by decide)
      (char_not_in_interp 'C' _ _ q (by decide) (by decide) (by decide)),
    pyIn_false_of_char '🚨' (by decide)
      (char_not_in_interp '🚨' _ _ q (by decide) (by decide) (by decide))]
  rfl

theorem effCritStr_safe (q : ℚ) :
    isWarningRec ("📉 CRITICAL: Efficiency at " ++ numRender q
      ++ "% is critically low! Investigate immediately.") = false :=
  isWarningRec_false_of_critical
    (pyIn_interp_left "CRITICAL" "📉 CRITICAL: Efficiency at " _ _ (by decide))

theorem effLowStr_safe (q : ℚ) :
    isCriticalRec ("📉 Efficiency at " ++ numRender q
      ++ "% is below optimal. Maintenance required.") = false := by
  unfold isCriticalRec
  rw [pyIn_false_of_char 'C' (by decide)
      (char_not_in_interp 'C' _ _ q (by decide) (by decide) (by decide)),
    pyIn_false_of_char '🚨' (by decide)
      (char_not_in_interp '🚨' _ _ q (by decide) (by decide) (by decide))]
  rfl

theorem mlBatteryRecs_safe (d : TelemetryRecord) :
    ∀ r ∈ mlBatteryRecs d, ¬(isCriticalRec r = true ∧ isWarningRec r = true) := by
  intro r hr
  rcases hb : d.battery_health with _ | bh
  · simp [mlBatteryRecs, hb] at hr
  · simp only [mlBatteryRecs, hb] at hr
    split_ifs at hr <;> simp at hr <;> subst hr <;> decide

theorem mlThermalRecs_safe (d : TelemetryRecord) :
    ∀ r ∈ mlThermalRecs d, ¬(isCriticalRec r = true ∧ isWarningRec r = true) := by
  intro r hr
  rcases hb : d.thermal_throttling with _ | tt
  · simp [mlThermalRecs, hb] at hr
  · simp only [mlThermalRecs, hb] at hr
    split_ifs at hr <;> simp at hr <;> subst hr <;> decide

theorem mlCpuRecs_safe (d : TelemetryRecord) :
    ∀ r ∈ mlCpuRecs d, ¬(isCriticalRec r = true ∧ isWarningRec r = true) := by
  intro r hr
  rcases hb : d.cpu_usage with _ | cpu
  · simp [mlCpuRecs, hb] at hr
  · simp only [mlCpuRecs, hb] at hr
    split_ifs at hr <;> simp at hr <;> subst hr <;> decide

theorem mlLoadRecs_safe (d : TelemetryRecord) :
    ∀ r ∈ mlLoadRecs d, ¬(isCriticalRec r = true ∧ isWarningRec r = true) := by
  intro r hr
  rcases hb : d.load_percentage with _ | load
  · simp [mlLoadRecs, hb] at hr
  · simp only [mlLoadRecs, hb] at hr
    split_ifs at hr <;> simp at hr <;> subst hr <;> decide

theorem mlOilRecs_safe (d : TelemetryRecord) :
    ∀ r ∈ mlOilRecs d, ¬(isCriticalRec r = true ∧ isWarningRec r = true) := by
  intro r hr
  rcases hb : d.oil_quality with _ | oil
  · simp [mlOilRecs, hb] at hr
  · simp only [mlOilRecs, hb] at hr
    split_ifs at hr <;> simp at hr <;> subst hr <;> decide

theorem mlNoiseRecs_safe (d : TelemetryRecord) :
    ∀ r ∈ mlNoiseRecs d, ¬(isCriticalRec r = true ∧ isWarningRec r = true) := by
  intro r hr
  rcases hb : d.noise_level with _ | noise
  · simp [mlNoiseRecs, hb] at hr
  · simp only [mlNoiseRecs, hb] at hr
    split_ifs at hr <;> simp at hr
    · subst hr
      rintro ⟨-, hw⟩
      rw [noiseCritStr_safe noise] at hw
      exact absurd hw (by simp)
    · subst hr
      rintro ⟨hc, -⟩
      rw [noiseElevStr_safe noise] at hc
      exact absurd hc (by simp)

theorem mlFanRecs_safe (d : TelemetryRecord) :
    ∀ r ∈ mlFanRecs d, ¬(isCriticalRec r = true ∧ isWarningRec r = true) := by
  intro r hr
  rcases hb : d.fan_speed with _ | fs
  · simp [mlFanRecs, hb] at hr
  · simp only [mlFanRecs, hb] at hr
    split_ifs at hr <;> simp at hr <;> subst hr <;> decide

theorem mlEffRecs_safe (d : TelemetryRecord) :
    ∀ r ∈ mlEffRecs d, ¬(isCriticalRec r = true ∧ isWarningRec r = true) := by
  intro r hr
  rcases hb : d.efficiency_rating with _ | eff
  · simp [mlEffRecs, hb] at hr
  · simp only [mlEffRecs, hb] at hr
    split_ifs at hr <;> simp at hr
    · subst hr
      rintro ⟨-, hw⟩
      rw [effCritStr_safe eff] at hw
      exact absurd hw (by simp)
    · subst hr
      rintro ⟨hc, -⟩
      rw [effLowStr_safe eff] at hc
      exact absurd hc (by simp)

theorem mlHealthRecs_safe (h : ℚ) (b : Bool) :
    ∀ r ∈ mlHealthRecs h b, ¬(isCriticalRec r = true ∧ isWarningRec r = true) := by
  intro r hr
  unfold mlHealthRecs at hr
  split_ifs at hr <;> simp at hr <;> subst hr <;> decide

theorem ml_recs_safe (d : TelemetryRecord) (h : ℚ) :
    ∀ r ∈ get_ml_recommendations d h,
      ¬(isCriticalRec r = true ∧ isWarningRec r = true) := by
  intro r hr
  unfold get_ml_recommendations at hr
  simp only [List.mem_append] at hr
  rcases hr with ((((((((hr | hr) | hr) | hr) | hr) | hr) | hr) | hr) | hr)
  · exact mlBatteryRecs_safe d r hr
  · exact mlThermalRecs_safe d r hr
  · exact mlCpuRecs_safe d r hr
  · exact mlLoadRecs_safe d r hr
  · exact mlOilRecs_safe d r hr
  · exact mlNoiseRecs_safe d r hr
  · exact mlFanRecs_safe d r hr
  · exact mlEffRecs_safe d r hr
  · exact mlHealthRecs_safe _ _ r hr

theorem get_ml_recommendations_ne_nil (d : TelemetryRecord) (h : ℚ) :
    get_ml_recommendations d h ≠ [] := by
  unfold get_ml_recommendations
  intro he
  rw [List.append_eq_nil] at he
  obtain ⟨hs, hh⟩ := he
  rw [hs] at hh
  simp only [List.isEmpty_nil, mlHealthRecs] at hh
  split_ifs at hh <;> simp at hh

theorem hoursCrit_sub (oh : Option ℚ) (r : String) (hr : r ∈ hoursCrit oh) :
    r = "⏱️ Operating hours exceed maximum lifespan" := by
  rcases oh with _ | h <;> simp only [hoursCrit] at hr
  · simp at hr
  · split_ifs at hr <;> simp at hr
    exact hr

theorem hoursWarn_sub (oh : Option ℚ) (r : String) (hr : r ∈ hoursWarn oh) :
    r = "⏱️ Operating hours very high" := by
  rcases oh with _ | h <;> simp only [hoursWarn] at hr
  · simp at hr
  · split_ifs at hr <;> simp at hr
    exact hr

theorem consumerCrit_sub (d : TelemetryRecord) (r : String) (hr : r ∈ consumerCrit d) :
    r = "🔋 Battery critically low" ∨ r = "💻 CPU at maximum" ∨
    r = "🌡️ Severe thermal throttling" := by
  unfold consumerCrit at hr
  simp only [List.mem_append] at hr
  rcases hr with (hr | hr) | hr
  · left
    rcases hb : d.battery_health with _ | bh <;> simp only [hb] at hr
    · simp at hr
    · split_ifs at hr <;> simp at hr
      exact hr
  · right; left
    rcases hb : d.cpu_usage with _ | cpu <;> simp only [hb] at hr
    · simp at hr
    · split_ifs at hr <;> simp at hr
      exact hr
  · right; right
    rcases hb : d.thermal_throttling with _ | tt <;> simp only [hb] at hr
    · simp at hr
    · split_ifs at hr <;> simp at hr
      exact hr

theorem consumerWarn_sub (d : TelemetryRecord) (r : String) (hr : r ∈ consumerWarn d) :
    r = "🔋 Battery poor" ∨ r = "🌡️ High thermal throttling" := by
  unfold consumerWarn at hr
  simp only [List.mem_append] at hr
  rcases hr with hr | hr
  · left
    rcases hb : d.battery_health with _ | bh <;> simp only [hb] at hr
    · simp at hr
    · split_ifs at hr <;> simp at hr
      exact hr
  · right
    rcases hb : d.thermal_throttling with _ | tt <;> simp only [hb] at hr
    · simp at hr
    · split_ifs at hr <;> simp at hr
      exact hr

theorem industrialCrit_sub (d : TelemetryRecord) (r : String) (hr : r ∈ industrialCrit d) :
    r = "⚙️ Equipment overloaded" ∨ r = "🛢️ Oil quality critical" ∨
    ∃ q : ℚ, r = "🔊 Noise at " ++ numRender q ++ "dB excessive" := by
  unfold industrialCrit at hr
  simp only [List.mem_append] at hr
  rcases hr with (hr | hr) | hr
  · left
    rcases hb : d.load_percentage with _ | load <;> simp only [hb] at hr
    · simp at hr
    · split_ifs at hr <;> simp at hr
      exact hr
  · right; left
    rcases hb : d.oil_quality with _ | oil <;> simp only [hb] at hr
    · simp at hr
    · split_ifs at hr <;> simp at hr
      exact hr
  · right; right
    rcases hb : d.noise_level with _ | noise <;> simp only [hb] at hr
    · simp at hr
    · split_ifs at hr <;> simp at hr
      exact ⟨noise, hr⟩

theorem rule_crit_cases (t : String) (d : TelemetryRecord) (r : String)
    (hr : r ∈ (rule_based_analyze t d).critical_issues) :
    r = "⏱️ Operating hours exceed maximum lifespan" ∨ r = "🔋 Battery critically low" ∨
    r = "💻 CPU at maximum" ∨ r = "🌡️ Severe thermal throttling" ∨
    r = "⚙️ Equipment overloaded" ∨ r = "🛢️ Oil quality critical" ∨
    ∃ q : ℚ, r = "🔊 Noise at " ++ numRender q ++ "dB excessive" := by
  have hr2 : r ∈ hoursCrit d.operating_hours
      ++ (if t ∈ consumerTypes then consumerCrit d else [])
      ++ (if t ∈ consumerTypes then []
          else if t ∈ industrialTypes then industrialCrit d else []) := hr
  simp only [List.mem_append] at hr2
  rcases hr2 with (hr2 | hr2) | hr2
  · exact Or.inl (hoursCrit_sub _ _ hr2)
  · by_cases hc : t ∈ consumerTypes
    · rw [if_pos hc] at hr2
      rcases consumerCrit_sub d r hr2 with h | h | h
      · exact Or.inr (Or.inl h)
      · exact Or.inr (Or.inr (Or.inl h))
      · exact Or.inr (Or.inr (Or.inr (Or.inl h)))
    · rw [if_neg hc] at hr2
      simp at hr2
  · by_cases hc : t ∈ consumerTypes
    · rw [if_pos hc] at hr2
      simp at hr2
    · rw [if_neg hc] at hr2
      by_cases hi : t ∈ industrialTypes
      · rw [if_pos hi] at hr2
        rcases industrialCrit_sub d r hr2 with h | h | h
        · exact Or.inr (Or.inr (Or.inr (Or.inr (Or.inl h))))
        · exact Or.inr (Or.inr (Or.inr (Or.inr (Or.inr (Or.inl h)))))
        · exact Or.inr (Or.inr (Or.inr (Or.inr (Or.inr (Or.inr h)))))
      · rw [if_neg hi] at hr2
        simp at hr2

theorem rule_warn_cases (t : String) (d : TelemetryRecord) (r : String)
    (hr : r ∈ (rule_based_analyze t d).warnings) :
    r = "⏱️ Operating hours very high" ∨ r = "🔋 Battery poor" ∨
    r = "🌡️ High thermal throttling" := by
  have hr2 : r ∈ hoursWarn d.operating_hours
      ++ (if t ∈ consumerTypes then consumerWarn d else []) := hr
  simp only [List.mem_append] at hr2
  rcases hr2 with hr2 | hr2
  · exact Or.inl (hoursWarn_sub _ _ hr2)
  · by_cases hc : t ∈ consumerTypes
    · rw [if_pos hc] at hr2
      rcases consumerWarn_sub d r hr2 with h | h
      · exact Or.inr (Or.inl h)
      · exact Or.inr (Or.inr h)
    · rw [if_neg hc] at hr2
      simp at hr2

theorem rule_path_disjoint (t : String) (d : TelemetryRecord) :
    ∀ r ∈ (rule_based_analyze t d).critical_issues,
      r ∉ (rule_based_analyze t d).warnings := by
  intro r hc hw
  rcases rule_warn_cases t d r hw with hw1 | hw1 | hw1 <;>
    rcases rule_crit_cases t d r hc with h | h | h | h | h | h | ⟨q, h⟩ <;>
    rw [h] at hw1 <;>
    first
      | exact absurd hw1 (by decide)
      | exact (char_not_in_interp '⏱' "🔊 Noise at " "dB excessive" q
          (by decide) (by decide) (by decide)) (by rw [hw1]; decide)
      | exact (char_not_in_interp '🔋' "🔊 Noise at " "dB excessive" q
          (by decide) (by decide) (by decide)) (by rw [hw1]; decide)
      | exact (char_not_in_interp '🌡' "🔊 Noise at " "dB excessive" q
          (by decide) (by decide) (by decide)) (by rw [hw1]; decide)

/-- C9: in every assessment, on both paths, critical_issues and warnings
are subsets of recommendations, no string appears both as a critical
issue and as a warning, and recommendations is never empty — when no
advisory is produced it holds an explicit nominal message. -/
theorem recommendation_structure :
    (∀ (t : String) (d : TelemetryRecord),
      (rule_based_analyze t d).recommendations ≠ [] ∧
      (∀ r ∈ (rule_based_analyze t d).critical_issues,
        r ∈ (rule_based_analyze t d).recommendations) ∧
      (∀ r ∈ (rule_based_analyze t d).warnings,
        r ∈ (rule_based_analyze t d).recommendations) ∧
      (∀ r ∈ (rule_based_analyze t d).critical_issues,
        r ∉ (rule_based_analyze t d).warnings)) ∧
    (∀ (raw : ℚ) (t : String) (d : TelemetryRecord),
      (ml_predict raw t d).recommendations ≠ [] ∧
      (∀ r ∈ (ml_predict raw t d).critical_issues,
        r ∈ (ml_predict raw t d).recommendations) ∧
      (∀ r ∈ (ml_predict raw t d).warnings,
        r ∈ (ml_predict raw t d).recommendations) ∧
      (∀ r ∈ (ml_predict raw t d).critical_issues,
        r ∉ (ml_predict raw t d).warnings)) := by
  constructor
  · intro t d
    have hR : (rule_based_analyze t d).recommendations
        = (if ((rule_based_analyze t d).critical_issues
              ++ (rule_based_analyze t d).warnings) = []
           then ["✅ Equipment operating within normal parameters"]
           else (rule_based_analyze t d).critical_issues
              ++ (rule_based_analyze t d).warnings) := rfl
    refine ⟨?_, ?_, ?_, rule_path_disjoint t d⟩
    · rw [hR]
      split_ifs with h
      · simp
      · exact h
    · intro r hr
      rw [hR, if_neg ?_]
      · exact List.mem_append_left _ hr
      · intro h
        rw [List.append_eq_nil] at h
        rw [h.1] at hr
        exact List.not_mem_nil r hr
    · intro r hr
      rw [hR, if_neg ?_]
      · exact List.mem_append_right _ hr
      · intro h
        rw [List.append_eq_nil] at h
        rw [h.2] at hr
        exact List.not_mem_nil r hr
  · intro raw t d
    have hrecs : (ml_predict raw t d).recommendations
        = get_ml_recommendations d (np_clip raw 0 100) := by
      show (if get_ml_recommendations d (np_clip raw 0 100) = [] then _
            else get_ml_recommendations d (np_clip raw 0 100)) = _
      rw [if_neg (get_ml_recommendations_ne_nil d _)]
    have hcrit : (ml_predict raw t d).critical_issues
        = (get_ml_recommendations d (np_clip raw 0 100)).filter isCriticalRec := rfl
    have hwarn : (ml_predict raw t d).warnings
        = (get_ml_recommendations d (np_clip raw 0 100)).filter isWarningRec := rfl
    refine ⟨?_, ?_, ?_, ?_⟩
    · rw [hrecs]
      exact get_ml_recommendations_ne_nil d _
    · intro r hr
      rw [hcrit] at hr
      rw [hrecs]
      exact (List.mem_filter.mp hr).1
    · intro r hr
      rw [hwarn] at hr
      rw [hrecs]
      exact (List.mem_filter.mp hr).1
    · intro r hr hw
      rw [hcrit] at hr
      rw [hwarn] at hw
      exact ml_recs_safe d _ r (List.mem_filter.mp hr).1
        ⟨(List.mem_filter.mp hr).2, (List.mem_filter.mp hw).2⟩

theorem recommendation_structure_witness :
    "🔋 Battery critically low" ∈ (rule_based_analyze "laptop"
      { equipment_type := some "laptop", battery_health := some 30 }).recommendations ∧
    "🔋 Battery critically low" ∉ (rule_based_analyze "laptop"
      { equipment_type := some "laptop", battery_health := some 30 }).warnings ∧
    (rule_based_analyze "laptop"
      { equipment_type := some "laptop", battery_health := some 30 }).recommendations ≠ [] ∧
    "🚨 URGENT: Equipment health critical! Schedule immediate inspection." ∈
      (ml_predict 20 "unknown" {}).recommendations :=
  ⟨(recommendation_structure.1 "laptop"
      { equipment_type := some "laptop", battery_health := some 30 }).2.1 _ (by decide),
   (recommendation_structure.1 "laptop"
      { equipment_type := some "laptop", battery_health := some 30 }).2.2.2 _ (by decide),
   (recommendation_structure.1 "laptop"
      { equipment_type := some "laptop", battery_health := some 30 }).1,
   (recommendation_structure.2 20 "unknown" {}).2.1 _ (by decide)⟩
